import Mathlib

set_option maxRecDepth 20000

/-!
Shallow embedding of the search-augmented chat orchestrator
(`src/modules/brave_search.py`, `src/modules/chat_handler.py`,
`src/modules/utils.py`) and proofs about it.

Python strings are modelled through their character sequences
(`String.data`); Python whitespace is modelled by `Char.isWhitespace`.
The network and the model provider are modelled as explicit environment
functions mapping a request (and an attempt index) to an outcome.
-/

namespace SearchChat

/-! ## Python string primitives, over character lists -/

def isWs (c : Char) : Bool := c.isWhitespace

/-- Python `len(s)`: the number of characters. -/
def pyLen (s : String) : Nat := s.data.length

/-- Python `s[:n]`: the first `n` characters. -/
def pyTake (n : Nat) (s : String) : String := String.mk (s.data.take n)

/-- Python `s.strip()`: drop whitespace from both ends. -/
def pyStrip (s : String) : String :=
  String.mk (((s.data.dropWhile isWs).reverse.dropWhile isWs).reverse)

/-- Python `s.split(sep)` for a one-character separator. -/
def splitCharList (sep : Char) : List Char → List (List Char)
  | [] => [[]]
  | c :: rest =>
    match splitCharList sep rest with
    | [] => [[]]
    | h :: t => if c = sep then [] :: h :: t else (c :: h) :: t

def pySplitChar (sep : Char) (s : String) : List String :=
  (splitCharList sep s.data).map String.mk

/-- Helper of `pySplitWs`: accumulate the current (reversed) token. -/
def splitWsAux : List Char → List Char → List (List Char)
  | [], acc => if acc.isEmpty then [] else [acc.reverse]
  | c :: rest, acc =>
    if isWs c then
      if acc.isEmpty then splitWsAux rest [] else acc.reverse :: splitWsAux rest []
    else splitWsAux rest (c :: acc)

/-- Python `s.split()` with no argument: maximal runs of non-whitespace. -/
def pySplitWs (s : String) : List String := (splitWsAux s.data []).map String.mk

/-- Python `sep.join(parts)`. -/
def pyJoin (sep : String) : List String → String
  | [] => ""
  | h :: t => t.foldl (fun acc x => acc ++ sep ++ x) h

/-- Engine of Python `s.replace(pat, "")` for a nonempty `pat`: delete every
occurrence, scanning left to right.  The fuel argument keeps the recursion
structural; with fuel `≥ s.length` it never runs out, since every step
consumes at least one character. -/
def eraseSubFuel (pat : List Char) : Nat → List Char → List Char
  | 0, s => s
  | _ + 1, [] => []
  | fuel + 1, c :: rest =>
    if pat ≠ [] ∧ pat.isPrefixOf (c :: rest) then
      eraseSubFuel pat fuel ((c :: rest).drop pat.length)
    else c :: eraseSubFuel pat fuel rest

/-- Python `s.replace(pat, "")`. -/
def pyEraseAll (s pat : String) : String :=
  String.mk (eraseSubFuel pat.data s.data.length s.data)

/-- Python `pat in s` (substring containment), over lists. -/
def containsSub (pat : List Char) : List Char → Bool
  | [] => pat.isEmpty
  | c :: rest => pat.isPrefixOf (c :: rest) || containsSub pat rest

/-- Python `pat in s` (substring containment). -/
def pyContains (s pat : String) : Bool := containsSub pat.data s.data

/-- Python `s.startswith(pre)`. -/
def pyStartsWith (s pre : String) : Bool := pre.data.isPrefixOf s.data

/-! ## Data model of the Brave search payload (`src/modules/brave_search.py`)

A JSON dictionary field that the code reads with `.get(key, default)` is an
`Option`; a missing key is `none`.  A sub-dictionary whose truthiness the
code tests (`if article_info:` …) is `none` exactly when the key is missing
or the dictionary is empty — the two cases are indistinguishable to this
code, which only ever reads it through `.get` under the truthiness test. -/

structure QueryInfo where
  original : Option String := none
deriving DecidableEq

structure MetaUrl where
  hostname : Option String := none
  favicon : Option String := none
deriving DecidableEq

structure AuthorEntry where
  name : Option String := none
deriving DecidableEq

structure ArticleInfo where
  author : Option (List AuthorEntry) := none
  date : Option String := none
deriving DecidableEq

structure RatingInfo where
  ratingValue : Option String := none
  reviewCount : Option String := none
deriving DecidableEq

structure VideoData where
  duration : Option String := none
  views : Option String := none
deriving DecidableEq

/-- One entry of `web.results`.  A `schemas` entry is `some t` when it is a
dictionary with an `@type` key (value `t`) and `none` otherwise. -/
structure ResultItem where
  title : Option String := none
  url : Option String := none
  description : Option String := none
  age : Option String := none
  language : Option String := none
  page_age : Option String := none
  meta_url : Option MetaUrl := none
  extra_snippets : Option (List String) := none
  schemas : Option (List (Option String)) := none
  content_type : Option String := none
  article : Option ArticleInfo := none
  rating : Option RatingInfo := none
  video : Option VideoData := none
deriving DecidableEq

structure WebData where
  results : Option (List ResultItem) := none
deriving DecidableEq

structure SearchData where
  query : Option QueryInfo := none
  web : Option WebData := none
deriving DecidableEq

/-! ## `BraveSearchClient.search` (brave_search.py lines 15–75) -/

/-- The keyword arguments of `search` (an absent key is `none`). -/
structure SearchKwargs where
  safesearch : Option String := none
  search_lang : Option String := none
  country : Option String := none
  freshness : Option String := none
deriving DecidableEq

/-- The query parameters the request carries (lines 32–47). -/
structure RequestParams where
  q : String
  count : Nat
  safesearch : String
  search_lang : Option String
  country : Option String
  freshness : Option String
deriving DecidableEq

/-- Lines 32–47: `search_lang` is added only when it is truthy and not in
`["auto", ""]`; `country` and `freshness` are added on key presence. -/
def build_params (query : String) (count : Nat) (kw : SearchKwargs) : RequestParams :=
  { q := query
    count := count
    safesearch := kw.safesearch.getD "moderate"
    search_lang :=
      match kw.search_lang with
      | some s => if s ≠ "" ∧ s ≠ "auto" then some s else none
      | none => none
    country := kw.country
    freshness := kw.freshness }

/-- What one `requests.get` call does: an HTTP response (status, body text,
and the result of `response.json()` — `Except.error e` when parsing raises,
with `e` the exception text), or one of the exception classes the code
catches. -/
inductive HttpOutcome where
  | response (status : Nat) (text : String) (json : Except String SearchData)
  | timeout
  | connError
  | otherExc (msg : String)

/-- The dictionary `search` returns: the parsed provider payload (which has
no `"error"` key) or a dictionary carrying the `"error"` key.  The code
never returns `None`, despite the `Optional[Dict]` annotation. -/
inductive SearchRet where
  | payload (d : SearchData)
  | errDict (msg : String)
deriving DecidableEq

/-- Lines 49–75 of brave_search.py.  `net` is the network environment:
what `requests.get` does for the request built from the arguments. -/
def search (query : String) (count : Nat) (kw : SearchKwargs)
    (net : RequestParams → HttpOutcome) : SearchRet :=
  match net (build_params query count kw) with
  | .response status text json =>
    if status = 200 then
      match json with
      | .ok d => .payload d
      | .error e => .errDict ("予期しないエラー: " ++ e)
    else .errDict ("HTTP " ++ toString status ++ ": " ++ pyTake 300 text)
  | .timeout => .errDict "検索リクエストがタイムアウトしました"
  | .connError => .errDict "検索APIに接続できませんでした"
  | .otherExc e => .errDict ("予期しないエラー: " ++ e)

/-- Line 261: the retry test of `search_with_retry` is a substring check on
the error message. -/
def retryable_error (msg : String) : Bool :=
  pyContains msg "429" || pyContains msg "502" || pyContains msg "503" || pyContains msg "504"

/-- The loop of `search_with_retry` (lines 251–270).  `rem` counts the
iterations `for attempt in range(retries + 1)` still has (the call site
passes `retries + 1`); `backoff` is the current sleep amount in whole time
units (`1.0` doubling stays integral); the returned list records the
`time.sleep` calls in order.  When `rem` hits `0` the loop has ended and
line 270 returns its fallback dictionary (dead code: the final iteration
always returns). -/
def search_with_retry_go (net : Nat → RequestParams → HttpOutcome) (query : String)
    (count : Nat) (kw : SearchKwargs) (retries : Nat) :
    Nat → Nat → Nat → List Nat → SearchRet × List Nat
  | _attempt, 0, _backoff, sleeps => (.errDict "最大リトライ回数に達しました", sleeps)
  | attempt, rem + 1, backoff, sleeps =>
    match search query count kw (net attempt) with
    | .payload d => (.payload d, sleeps)
    | .errDict msg =>
      if retryable_error msg ∧ attempt < retries then
        search_with_retry_go net query count kw retries (attempt + 1) rem (backoff * 2)
          (sleeps ++ [backoff])
      else (.errDict msg, sleeps)

/-- `search_with_retry` (lines 238–270): the result together with the list
of sleeps performed. -/
def search_with_retry (net : Nat → RequestParams → HttpOutcome) (query : String)
    (count : Nat) (kw : SearchKwargs) (retries : Nat) : SearchRet × List Nat :=
  search_with_retry_go net query count kw retries 0 (retries + 1) 1 []

/-- Reference recursion for the amended C1: attempt `attempt` sees result
`res attempt`; a failure whose message passes `retryable_error` is retried
while additional attempts remain, sleeping `2 ^ attempt`; any other failure,
or an exhausted budget, returns the last failure unchanged. -/
def retryFromModel (res : Nat → SearchRet) : Nat → Nat → SearchRet × List Nat
  | attempt, 0 => (res attempt, [])
  | attempt, rem + 1 =>
    match res attempt with
    | .payload d => (.payload d, [])
    | .errDict msg =>
      if retryable_error msg then
        let r := retryFromModel res (attempt + 1) rem
        (r.1, 2 ^ attempt :: r.2)
      else (.errDict msg, [])

/-- The retry classification claim C1 asserts: HTTP status in
{429, 502, 503, 504}, or a connection timeout. -/
def claimRetryable : HttpOutcome → Bool
  | .response status _ _ => status == 429 || status == 502 || status == 503 || status == 504
  | .timeout => true
  | _ => false

/-- C1's claimed behaviour of `search_with_retry`, written from the spec's
words: retry exactly the claim-retryable outcomes with backoff 1, 2, 4, …,
up to `maxRetries` additional attempts; otherwise return the classified
result at once; on exhaustion return the last failure. -/
def fetchWithRetry_claimed (net : Nat → RequestParams → HttpOutcome) (query : String)
    (count : Nat) (kw : SearchKwargs) : Nat → Nat → SearchRet × List Nat
  | attempt, 0 => (search query count kw (net attempt), [])
  | attempt, rem + 1 =>
    if claimRetryable (net attempt (build_params query count kw)) then
      let r := fetchWithRetry_claimed net query count kw (attempt + 1) rem
      (r.1, 2 ^ attempt :: r.2)
    else (search query count kw (net attempt), [])

/-- `search` never returns a success dictionary for a failed call: the
`"error"` key is present exactly on the failure paths. -/
def dict_has_error : SearchRet → Bool
  | .payload _ => false
  | .errDict _ => true

/-- A call succeeded when the HTTP status was 200 and the body parsed. -/
def outcome_is_success : HttpOutcome → Bool
  | .response status _ (Except.ok _) => status == 200
  | _ => false

/-! ## `ChatHandler` (src/modules/chat_handler.py)

`tiktoken` is modelled by an `Option (String → Nat)`: `none` when the
library is unavailable (`TIKTOKEN_AVAILABLE = False`), otherwise the
encoder as a total function (the `try/except` fallback inside
`count_tokens` is folded into it). -/

/-- One chat message (`{"role": …, "content": …}`). -/
structure ChatMsg where
  role : String
  content : String
deriving DecidableEq

/-- `count_tokens` (lines 196–215): `len(text) // 4` without tiktoken,
otherwise the encoder's count. -/
def count_tokens (tok : Option (String → Nat)) (text : String) : Nat :=
  match tok with
  | none => pyLen text / 4
  | some f => f text

/-- The total estimate of a message list, as line 63 sums it. -/
def sumTokens (count : String → Nat) (l : List ChatMsg) : Nat :=
  (l.map (fun m => count m.content)).sum

/-- The walk of `_trim_messages` (lines 239–244) over the reversed
conversation: `cur` is `current_tokens`, `acc` the kept messages (each
`insert(1, message)` is a cons onto the previously kept ones). -/
def trim_go (count : String → Nat) (maxTokens : Nat) :
    List ChatMsg → Nat → List ChatMsg → List ChatMsg
  | [], _, acc => acc
  | m :: rest, cur, acc =>
    if maxTokens < cur + count m.content then acc
    else trim_go count maxTokens rest (cur + count m.content) (m :: acc)

/-- `_trim_messages` (lines 217–246). -/
def trim_messages (count : String → Nat) (messages : List ChatMsg) (maxTokens : Nat) :
    List ChatMsg :=
  match messages with
  | [] => []
  | [m] => [m]
  | system :: conversation =>
    system :: trim_go count maxTokens conversation.reverse (count system.content) []

def context_token_limit : Nat := 2000

def global_token_limit : Nat := 4000

def persona : String := "あなたは親切で知識豊富なAIアシスタントです。日本語で丁寧に回答してください。"

def context_preamble : String := "\n\n以下の最新の検索結果を参考にして回答してください：\n"

def truncation_notice : String := "\n[検索結果が長いため一部を省略しました]"

/-- The line loop of lines 47–53: accumulate `line + '\n'` while the
estimate of the accumulated text stays within the limit; stop at the first
line that would exceed it. -/
def truncate_lines (count : String → Nat) (limit : Nat) : List String → String → String
  | [], acc => acc
  | line :: rest, acc =>
    if limit < count (acc ++ line ++ "\n") then acc
    else truncate_lines count limit rest (acc ++ line ++ "\n")

/-- Lines 43–54: the context is cut only when tiktoken is available and its
estimate exceeds `context_token_limit`; the truncation notice is then
appended. -/
def bounded_context (tok : Option (String → Nat)) (ctx : String) : String :=
  match tok with
  | some f =>
    if context_token_limit < count_tokens (some f) ctx then
      truncate_lines (count_tokens (some f)) context_token_limit (pySplitChar '\n' ctx) ""
        ++ truncation_notice
    else ctx
  | none => ctx

/-- Lines 36–56: the system message; a present, nonempty search context is
appended after the preamble (`if search_context:` is false for `""`). -/
def build_system_message (tok : Option (String → Nat)) (search_context : Option String) :
    ChatMsg :=
  match search_context with
  | some ctx =>
    if ctx = "" then ⟨"system", persona⟩
    else ⟨"system", persona ++ context_preamble ++ bounded_context tok ctx⟩
  | none => ⟨"system", persona⟩

/-- Lines 58–66: prepend the system message; when tiktoken is available and
the total estimate exceeds `global_token_limit`, trim. -/
def build_full_messages (tok : Option (String → Nat)) (messages : List ChatMsg)
    (search_context : Option String) : List ChatMsg :=
  let full := build_system_message tok search_context :: messages
  match tok with
  | none => full
  | some f =>
    if global_token_limit < sumTokens (count_tokens (some f)) full then
      trim_messages (count_tokens (some f)) full global_token_limit
    else full

/-- The request `chat.completions.create(**api_params)` receives
(lines 69–78): `temperature` is omitted for the `gpt-5` model family. -/
structure ApiParams where
  model : String
  messages : List ChatMsg
  max_completion_tokens : Nat
  stream : Bool
  temperature : Option Float

/-- Lines 36–78: everything `get_response` assembles before the call. -/
def request_params (tok : Option (String → Nat)) (model : String) (max_tokens : Nat)
    (temperature : Float) (messages : List ChatMsg) (search_context : Option String) :
    ApiParams :=
  { model := model
    messages := build_full_messages tok messages search_context
    max_completion_tokens := max_tokens
    stream := false
    temperature := if pyStartsWith model "gpt-5" then none else some temperature }

/-- `choices[i].message` (`None` when absent) and its `content`. -/
structure ChatChoiceMessage where
  content : Option String
deriving DecidableEq

structure ChatChoice where
  message : Option ChatChoiceMessage
  finish_reason : String
deriving DecidableEq

structure ChatCompletion where
  choices : List ChatChoice
deriving DecidableEq

/-- What the provider call does: a completion object, or one of the
exception classes `get_response` catches (lines 99–106). -/
inductive ChatOutcome where
  | completion (r : ChatCompletion)
  | rateLimitError
  | authenticationError
  | apiError (msg : String)
  | otherError (msg : String)

/-- Lines 82–97: render a completion object, with a distinct diagnostic for
each malformed shape. -/
def render_completion (r : ChatCompletion) : String :=
  match r.choices with
  | [] => "⚠️ APIレスポンスにchoicesが含まれていません。"
  | choice :: _ =>
    match choice.message with
    | none => "⚠️ APIレスポンスにmessageが含まれていません。"
    | some m =>
      match m.content with
      | none => "⚠️ APIレスポンスのcontentがNoneです。finish_reason: " ++ choice.finish_reason
      | some content =>
        if pyStrip content = "" then "⚠️ APIレスポンスが空の文字列です。" else content

/-- `get_response` (lines 23–106).  `provider` is the environment: what the
provider call does for the request it receives.  Total: every failure path
returns a diagnostic string. -/
def get_response (tok : Option (String → Nat)) (model : String) (max_tokens : Nat)
    (temperature : Float) (messages : List ChatMsg) (search_context : Option String)
    (provider : ApiParams → ChatOutcome) : String :=
  match provider (request_params tok model max_tokens temperature messages search_context) with
  | .completion r => render_completion r
  | .rateLimitError => "⚠️ APIのレート制限に達しました。しばらく待ってから再試行してください。"
  | .authenticationError => "⚠️ OpenAI APIキーが無効です。設定を確認してください。"
  | .apiError m => "⚠️ OpenAI APIエラー: " ++ m
  | .otherError m => "⚠️ 予期しないエラーが発生しました: " ++ m

/-- The exception classes the loop of `get_response_with_retry` handles. -/
inductive PyExc where
  | rateLimit
  | other (msg : String)

/-- The loop of `get_response_with_retry` (lines 120–136): `rem` counts the
iterations `for attempt in range(retries)` still has; `f attempt` is what
the attempt's body does (`Except.error` would be a raised exception).  The
returned list records the sleeps.  When `rem` hits `0` line 136 returns the
fallback message. -/
def retry_attempts_go (f : Nat → Except PyExc String) (retries : Nat) :
    Nat → Nat → List Nat → String × List Nat
  | _attempt, 0, sleeps =>
    ("⚠️ 応答の生成に失敗しました。時間をおいて再試行してください。", sleeps)
  | attempt, rem + 1, sleeps =>
    match f attempt with
    | .ok s => (s, sleeps)
    | .error .rateLimit =>
      if attempt < retries - 1 then
        retry_attempts_go f retries (attempt + 1) rem (sleeps ++ [2 ^ attempt])
      else ("⚠️ レート制限に達しました。しばらく待ってから再試行してください。", sleeps)
    | .error (.other m) =>
      if attempt < retries - 1 then
        retry_attempts_go f retries (attempt + 1) rem (sleeps ++ [1])
      else ("⚠️ 複数回試行しましたが、エラーが発生しました: " ++ m, sleeps)

/-- `get_response_with_retry` (lines 108–136).  `providers attempt` is the
provider environment seen by that attempt.  Each attempt's body is
`Except.ok` of `get_response`'s result: `get_response` catches every
exception internally and never raises, so the loop's `except` branches
(kept verbatim in `retry_attempts_go`) are unreachable. -/
def get_response_with_retry (tok : Option (String → Nat)) (model : String)
    (max_tokens : Nat) (temperature : Float) (messages : List ChatMsg)
    (search_context : Option String) (providers : Nat → ApiParams → ChatOutcome)
    (retries : Nat) : String × List Nat :=
  retry_attempts_go
    (fun i => Except.ok (get_response tok model max_tokens temperature messages
      search_context (providers i)))
    retries 0 retries []

/-- C2's claimed behaviour of `get_response_with_retry`, written from the
spec's words: a rate-limit-class failure is retried with backoff
`2 ^ attempt` while attempts remain, exhaustion returning the fixed
exhaustion message; any other exception gets one flat-delay retry before
giving up; a completion is rendered and returned. -/
def respondWithRetry_claimed (tok : Option (String → Nat)) (model : String)
    (max_tokens : Nat) (temperature : Float) (messages : List ChatMsg)
    (search_context : Option String) (providers : Nat → ApiParams → ChatOutcome) :
    Nat → Nat → Bool → String × List Nat
  | _attempt, 0, _ =>
    ("⚠️ レート制限に達しました。しばらく待ってから再試行してください。", [])
  | attempt, rem + 1, flatUsed =>
    match providers attempt
        (request_params tok model max_tokens temperature messages search_context) with
    | .completion r => (render_completion r, [])
    | .rateLimitError =>
      match rem with
      | 0 => ("⚠️ レート制限に達しました。しばらく待ってから再試行してください。", [])
      | _ + 1 =>
        let x := respondWithRetry_claimed tok model max_tokens temperature messages
          search_context providers (attempt + 1) rem flatUsed
        (x.1, 2 ^ attempt :: x.2)
    | _ =>
      if flatUsed then
        ("⚠️ 複数回試行しましたが、エラーが発生しました", [])
      else
        let x := respondWithRetry_claimed tok model max_tokens temperature messages
          search_context providers (attempt + 1) rem true
        (x.1, 1 :: x.2)

/-! ## `extract_search_query` (chat_handler.py lines 169–194) -/

/-- The filler phrases of lines 180–184, in source order. -/
def remove_phrase_list : List String :=
  ["検索して", "調べて", "探して", "について教えて",
   "とは何ですか", "を教えて", "について知りたい",
   "どうですか", "はどう", "？", "?"]

/-- `extract_search_query` (lines 169–194): erase each filler phrase in
turn, collapse whitespace, and fall back to the stripped original message
when the stripped result is empty (`return query.strip() or
user_message.strip()`). -/
def extract_search_query (user_message : String) : String :=
  let query := remove_phrase_list.foldl (fun q p => pyEraseAll q p) user_message
  let collapsed := pyJoin " " (pySplitWs query)
  if pyStrip collapsed ≠ "" then pyStrip collapsed else pyStrip user_message

/-! ## The result formatters (brave_search.py lines 77–236, utils.py 49–84) -/

def no_results_msg : String := "検索結果が見つかりませんでした。"

def display_no_results_msg : String := "🔍 検索結果が見つかりませんでした。"

/-- `"\n".join`-concatenation of the pieces `result_text` accumulates. -/
def seg_host (r : ResultItem) : List String :=
  let hostname := (r.meta_url.bind MetaUrl.hostname).getD ""
  if hostname ≠ "" then ["\nサイト: " ++ hostname] else []

def seg_desc (r : ResultItem) : List String :=
  let description := r.description.getD ""
  if description ≠ "" then
    ["\n説明: " ++ (if 300 < pyLen description then pyTake 300 description ++ "..."
      else description)]
  else []

def seg_snippets (r : ResultItem) : List String :=
  let es := r.extra_snippets.getD []
  if es ≠ [] then
    let t := pyJoin " | " (es.take 3)
    ["\n追加情報: " ++ (if 200 < pyLen t then pyTake 200 t ++ "..." else t)]
  else []

def seg_age (r : ResultItem) : List String :=
  let age := r.age.getD ""
  if age ≠ "" then ["\n更新時期: " ++ age] else []

def seg_content_type (r : ResultItem) : List String :=
  let ct := r.content_type.getD ""
  if ct ≠ "" then ["\nコンテンツタイプ: " ++ ct] else []

def seg_article (r : ResultItem) : List String :=
  match r.article with
  | none => []
  | some a =>
    (match a.author.getD [] with
     | [] => []
     | a0 :: _ =>
       let nm := a0.name.getD ""
       if nm ≠ "" then ["\n著者: " ++ nm] else [])
    ++ (let dt := a.date.getD ""
        if dt ≠ "" then ["\n公開日: " ++ dt] else [])

def seg_rating (r : ResultItem) : List String :=
  match r.rating with
  | none => []
  | some ri =>
    let rv := ri.ratingValue.getD ""
    let rc := ri.reviewCount.getD ""
    if rv ≠ "" then
      ["\n評価: " ++ rv] ++ (if rc ≠ "" then [" (" ++ rc ++ "件のレビュー)"] else [])
    else []

def seg_video (r : ResultItem) : List String :=
  match r.video with
  | none => []
  | some v =>
    (let du := v.duration.getD ""
     if du ≠ "" then ["\n動画時間: " ++ du] else [])
    ++ (let vw := v.views.getD ""
        if vw ≠ "" then ["\n再生回数: " ++ vw] else [])

def seg_schemas (r : ResultItem) : List String :=
  let ss := r.schemas.getD []
  if ss ≠ [] then
    let types := (ss.take 3).filterMap (fun x => x)
    if types ≠ [] then ["\n構造化データ: " ++ pyJoin ", " types] else []
  else []

/-- One `【結果 i】` block of `format_results_for_llm` (lines 104–199):
the concatenation of the pieces `result_text` accumulates. -/
def result_block (i : Nat) (r : ResultItem) : String :=
  String.join
    (["\n【結果 " ++ toString i ++ "】",
      "\nタイトル: " ++ r.title.getD "タイトルなし",
      "\nURL: " ++ r.url.getD ""]
     ++ seg_host r ++ seg_desc r ++ seg_snippets r ++ seg_age r ++ seg_content_type r
     ++ seg_article r ++ seg_rating r ++ seg_video r ++ seg_schemas r)

/-- The header lines of `format_results_for_llm` (lines 99–102). -/
def llm_header (d : SearchData) (results : List ResultItem) : List String :=
  ["検索クエリ: " ++ (d.query.bind QueryInfo.original).getD "",
   "検索結果数: " ++ toString results.length ++ "件",
   String.mk (List.replicate 50 '=')]

/-- The `formatted_results` list (lines 99–199): headers, then one block
for each of the first 8 items, enumerated from 1. -/
def llm_result_list (d : SearchData) (results : List ResultItem) : List String :=
  llm_header d results ++ (results.take 8).enum.map (fun p => result_block (p.1 + 1) p.2)

/-- `format_results_for_llm` (lines 77–201).  The argument is the
dictionary `search` returned, or `None`. -/
def format_results_for_llm (search_data : Option SearchRet) : String :=
  match search_data with
  | none => no_results_msg
  | some (.errDict _) => no_results_msg
  | some (.payload d) =>
    match d.web with
    | none => no_results_msg
    | some w =>
      let results := w.results.getD []
      if results = [] then no_results_msg
      else pyJoin "\n" (llm_result_list d results)

/-- One numbered block of `format_results_for_llm_simple` (lines 221–234). -/
def simple_block (i : Nat) (r : ResultItem) : String :=
  let description := r.description.getD "説明なし"
  let description := if 200 < pyLen description then pyTake 200 description ++ "..."
    else description
  toString i ++ ". " ++ r.title.getD "タイトルなし" ++ "\n"
    ++ "URL: " ++ r.url.getD "" ++ "\n"
    ++ "概要: " ++ description ++ "\n"

/-- `format_results_for_llm_simple` (lines 203–236). -/
def format_results_for_llm_simple (search_data : Option SearchRet) : String :=
  match search_data with
  | none => no_results_msg
  | some (.errDict _) => no_results_msg
  | some (.payload d) =>
    match d.web with
    | none => no_results_msg
    | some w =>
      let results := w.results.getD []
      if results = [] then no_results_msg
      else
        "検索結果:\n"
          ++ pyJoin "\n" ((results.take 5).enum.map (fun p => simple_block (p.1 + 1) p.2))

/-- One numbered block of `format_search_results_for_display`
(utils.py lines 72–82). -/
def display_block (i : Nat) (r : ResultItem) : String :=
  let description := r.description.getD "説明なし"
  let description := if 150 < pyLen description then pyTake 150 description ++ "..."
    else description
  "**" ++ toString i ++ ". [" ++ r.title.getD "タイトルなし" ++ "](" ++ r.url.getD ""
    ++ ")**\n" ++ description ++ "\n\n"

/-- `format_search_results_for_display` (utils.py lines 49–84). -/
def format_search_results_for_display (search_data : Option SearchRet) : String :=
  match search_data with
  | none => display_no_results_msg
  | some (.errDict _) => display_no_results_msg
  | some (.payload d) =>
    match d.web with
    | none => display_no_results_msg
    | some w =>
      let results := w.results.getD []
      if results = [] then display_no_results_msg
      else
        results.enum.foldl (fun acc p => acc ++ display_block (p.1 + 1) p.2)
          ("### 🔍 検索結果: \"" ++ (d.query.bind QueryInfo.original).getD ""
            ++ "\" (" ++ toString results.length ++ "件)\n\n")

/-! ## Reference definitions written from the spec's words (claim C5), and
concrete inputs used by the example conjuncts and counterexamples. -/

/-- Join lines back, each followed by a newline, as the accumulator of the
truncation loop does. -/
def joinNL : List String → String
  | [] => ""
  | l :: ls => l ++ "\n" ++ joinNL ls

/-- How many leading lines the claimed bounding keeps: accumulate while the
running estimate stays at or under the limit, stop at the first line that
would exceed it. -/
def claimedKeepCount (count : String → Nat) (limit : Nat) : List String → String → Nat
  | [], _ => 0
  | line :: rest, acc =>
    if limit < count (acc ++ line ++ "\n") then 0
    else 1 + claimedKeepCount count limit rest (acc ++ line ++ "\n")

/-- C5's claimed bounding of a search context, written from the spec's
words: always bound by the estimator, line by line from the start, and
append the truncation notice if and only if the context was cut. -/
def boundContext_claimed (count : String → Nat) (limit : Nat) (ctx : String) : String :=
  if claimedKeepCount count limit (pySplitChar '\n' ctx) "" = (pySplitChar '\n' ctx).length
  then ctx
  else
    joinNL ((pySplitChar '\n' ctx).take (claimedKeepCount count limit (pySplitChar '\n' ctx) ""))
      ++ truncation_notice

/-- The token estimator of the C4 example: the system message estimates to
50, every other message to 100. -/
def exCount (s : String) : Nat := if s = "SYS" then 50 else 100

def exSys : ChatMsg := ⟨"system", "SYS"⟩

def exConv : List ChatMsg :=
  [⟨"user", "m1"⟩, ⟨"assistant", "m2"⟩, ⟨"user", "m3"⟩, ⟨"assistant", "m4"⟩, ⟨"user", "m5"⟩]

/-- A context of 8004 characters: its fallback estimate `8004 // 4 = 2001`
exceeds `context_token_limit`. -/
def bigCtx : String := String.mk (List.replicate 8004 'a')

/-- A 400-character description, for the C6 example. -/
def desc400 : String := String.mk (List.replicate 400 'd')

def item400 : ResultItem := { description := some desc400 }

/-- Ten result items, for the C6 example. -/
def items10 : List ResultItem := List.replicate 10 ({} : ResultItem)

/-! ## Helper lemmas -/

theorem mk_data (s : String) : String.mk s.data = s := rfl

theorem data_mk (l : List Char) : (String.mk l).data = l := rfl

theorem pyLen_append (a b : String) : pyLen (a ++ b) = pyLen a + pyLen b := by
  simp [pyLen]

theorem mk_eq_empty_iff (l : List Char) : String.mk l = "" ↔ l = [] := by
  constructor
  · intro h
    have := congrArg String.data h
    simpa using this
  · intro h
    subst h
    rfl

/-- A string whose prefix of length `n` differs from `b`'s stays different
from `b` after appending anything, when `n` fits inside it. -/
theorem append_ne_of_take_ne (a b : String) (n : Nat) (hn : n ≤ a.data.length)
    (h : a.data.take n ≠ b.data.take n) : ∀ x, a ++ x ≠ b := by
  intro x he
  apply h
  have hd : a.data ++ x.data = b.data := by
    have := congrArg String.data he
    simpa using this
  calc a.data.take n = (a.data ++ x.data).take n := by
        rw [List.take_append_of_le_length hn]
    _ = b.data.take n := by rw [hd]

theorem splitCharList_no_sep (sep : Char) :
    ∀ l : List Char, (∀ c ∈ l, c ≠ sep) → splitCharList sep l = [l] := by
  intro l
  induction l with
  | nil => intro _; rfl
  | cons c rest ih =>
    intro h
    have hr : splitCharList sep rest = [rest] := ih (fun x hx => h x (List.mem_cons_of_mem _ hx))
    have hc : c ≠ sep := h c (List.mem_cons_self _ _)
    simp [splitCharList, hr, hc]

theorem pySplitChar_no_sep (sep : Char) (s : String) (h : ∀ c ∈ s.data, c ≠ sep) :
    pySplitChar sep s = [s] := by
  simp [pySplitChar, splitCharList_no_sep sep s.data h, mk_data]

/-! ## Claim C7 -/

/-- C7: for every search query whose language hint is `"auto"`, empty, or
absent, the outgoing request built by `search` carries no `search_lang`
parameter; it carries one exactly when the hint is a concrete language
code (nonempty and not `"auto"`). -/
theorem C7_language_param_conditional :
    (∀ q c kw, kw.search_lang = none → (build_params q c kw).search_lang = none)
    ∧ (∀ q c kw, kw.search_lang = some "" → (build_params q c kw).search_lang = none)
    ∧ (∀ q c kw, kw.search_lang = some "auto" → (build_params q c kw).search_lang = none)
    ∧ (∀ q c kw s, (build_params q c kw).search_lang = some s →
        kw.search_lang = some s ∧ s ≠ "" ∧ s ≠ "auto") := by
  refine ⟨?_, ?_, ?_, ?_⟩
  · intro q c kw h
    simp [build_params, h]
  · intro q c kw h
    simp [build_params, h]
  · intro q c kw h
    simp [build_params, h]
  · intro q c kw s h
    cases hsl : kw.search_lang with
    | none => simp [build_params, hsl] at h
    | some t =>
      by_cases h1 : t ≠ "" ∧ t ≠ "auto"
      · have ht : some t = some s := by
          rw [← h]
          simp [build_params, hsl, h1]
        obtain rfl : t = s := Option.some.inj ht
        exact ⟨rfl, h1⟩
      · simp [build_params, hsl, h1] at h

/-- C7 at concrete inputs: the `"auto"` hint and the empty hint are
omitted. -/
theorem C7_witness_auto_omitted :
    (build_params "tokyo weather" 10 { search_lang := some "auto" }).search_lang = none
    ∧ (build_params "tokyo weather" 10 { search_lang := some "" }).search_lang = none :=
  ⟨C7_language_param_conditional.2.2.1 "tokyo weather" 10 _ rfl,
   C7_language_param_conditional.2.1 "tokyo weather" 10 _ rfl⟩

/-! ## Claim C10 -/

/-- C10: a single `search` call never raises and never returns `None` (it
is a total function into `SearchRet`); the returned dictionary carries the
`"error"` key exactly when the call did not succeed (non-200 status,
malformed body, timeout, connection error, or any other exception), and
each failure class produces its describing message. -/
theorem C10_search_error_key_totality :
    (∀ q c kw net, dict_has_error (search q c kw net)
        = !outcome_is_success (net (build_params q c kw)))
    ∧ (∀ q c kw st txt e, st ≠ 200 →
        search q c kw (fun _ => .response st txt e)
          = .errDict ("HTTP " ++ toString st ++ ": " ++ pyTake 300 txt))
    ∧ (∀ q c kw txt pe,
        search q c kw (fun _ => .response 200 txt (.error pe))
          = .errDict ("予期しないエラー: " ++ pe))
    ∧ (∀ q c kw,
        search q c kw (fun _ => .timeout) = .errDict "検索リクエストがタイムアウトしました")
    ∧ (∀ q c kw,
        search q c kw (fun _ => .connError) = .errDict "検索APIに接続できませんでした")
    ∧ (∀ q c kw m,
        search q c kw (fun _ => .otherExc m) = .errDict ("予期しないエラー: " ++ m))
    ∧ (∀ q c kw txt d,
        search q c kw (fun _ => .response 200 txt (.ok d)) = .payload d) := by
  refine ⟨?_, ?_, ?_, ?_, ?_, ?_, ?_⟩
  · intro q c kw net
    cases hn : net (build_params q c kw) with
    | response st txt e =>
      by_cases hst : st = 200
      · subst hst
        cases e with
        | ok d => simp [search, hn, dict_has_error, outcome_is_success]
        | error pe => simp [search, hn, dict_has_error, outcome_is_success]
      · cases e with
        | ok d => simp [search, hn, hst, dict_has_error, outcome_is_success]
        | error pe => simp [search, hn, hst, dict_has_error, outcome_is_success]
    | timeout => simp [search, hn, dict_has_error, outcome_is_success]
    | connError => simp [search, hn, dict_has_error, outcome_is_success]
    | otherExc m => simp [search, hn, dict_has_error, outcome_is_success]
  · intro q c kw st txt e hst
    cases e <;> simp [search, hst]
  · intro q c kw txt pe
    simp [search]
  · intro q c kw
    simp [search]
  · intro q c kw
    simp [search]
  · intro q c kw m
    simp [search]
  · intro q c kw txt d
    simp [search]

/-- C10 at a concrete input: a timeout yields an error dictionary. -/
theorem C10_witness_timeout :
    dict_has_error (search "news" 10 {} (fun _ => .timeout))
      = !outcome_is_success (HttpOutcome.timeout) :=
  C10_search_error_key_totality.1 "news" 10 {} (fun _ => .timeout)

/-! ## Claim C9 -/

/-- C9: each of the three formatters returns its fixed "no results"
sentinel string — rather than raising or returning an error value — when
the input is `None`, a failure dictionary (no `"web"` key), has no `web`
entry, or has an empty result list. -/
theorem C9_formatters_no_results_sentinel :
    (format_results_for_llm none = no_results_msg)
    ∧ (∀ m, format_results_for_llm (some (.errDict m)) = no_results_msg)
    ∧ (∀ d, d.web = none → format_results_for_llm (some (.payload d)) = no_results_msg)
    ∧ (∀ d w, d.web = some w → w.results.getD [] = [] →
        format_results_for_llm (some (.payload d)) = no_results_msg)
    ∧ (format_results_for_llm_simple none = no_results_msg)
    ∧ (∀ m, format_results_for_llm_simple (some (.errDict m)) = no_results_msg)
    ∧ (∀ d, d.web = none → format_results_for_llm_simple (some (.payload d)) = no_results_msg)
    ∧ (∀ d w, d.web = some w → w.results.getD [] = [] →
        format_results_for_llm_simple (some (.payload d)) = no_results_msg)
    ∧ (format_search_results_for_display none = display_no_results_msg)
    ∧ (∀ m, format_search_results_for_display (some (.errDict m)) = display_no_results_msg)
    ∧ (∀ d, d.web = none →
        format_search_results_for_display (some (.payload d)) = display_no_results_msg)
    ∧ (∀ d w, d.web = some w → w.results.getD [] = [] →
        format_search_results_for_display (some (.payload d)) = display_no_results_msg) := by
  refine ⟨rfl, fun m => rfl, ?_, ?_, rfl, fun m => rfl, ?_, ?_, rfl, fun m => rfl, ?_, ?_⟩
  · intro d h
    simp [format_results_for_llm, h]
  · intro d w h hr
    simp [format_results_for_llm, h, hr]
  · intro d h
    simp [format_results_for_llm_simple, h]
  · intro d w h hr
    simp [format_results_for_llm_simple, h, hr]
  · intro d h
    simp [format_search_results_for_display, h]
  · intro d w h hr
    simp [format_search_results_for_display, h, hr]

/-- C9 at a concrete input: a failure dictionary gets the sentinel from
all three formatters. -/
theorem C9_witness_error_dict :
    format_results_for_llm (some (.errDict "HTTP 500: boom")) = no_results_msg
    ∧ format_results_for_llm_simple (some (.errDict "HTTP 500: boom")) = no_results_msg
    ∧ format_search_results_for_display (some (.errDict "HTTP 500: boom"))
        = display_no_results_msg :=
  ⟨C9_formatters_no_results_sentinel.2.1 "HTTP 500: boom",
   C9_formatters_no_results_sentinel.2.2.2.2.2.1 "HTTP 500: boom",
   C9_formatters_no_results_sentinel.2.2.2.2.2.2.2.2.2.1 "HTTP 500: boom"⟩

/-! ## Claim C1 -/

/-- The loop of `search_with_retry` agrees with the reference recursion
`retryFromModel` on every reachable configuration (`backoff = 2 ^ attempt`,
`attempt + rem = retries + 1`, at least one iteration left). -/
theorem search_with_retry_go_model (net : Nat → RequestParams → HttpOutcome)
    (q : String) (c : Nat) (kw : SearchKwargs) (retries : Nat) :
    ∀ rem attempt sleeps, attempt + rem = retries + 1 → 1 ≤ rem →
    search_with_retry_go net q c kw retries attempt rem (2 ^ attempt) sleeps =
      ((retryFromModel (fun i => search q c kw (net i)) attempt (retries - attempt)).1,
       sleeps ++ (retryFromModel (fun i => search q c kw (net i)) attempt (retries - attempt)).2) := by
  intro rem
  induction rem with
  | zero =>
    intro attempt sleeps _ h1
    omega
  | succ rr ih =>
    intro attempt sleeps hsum _
    cases hres : search q c kw (net attempt) with
    | payload d =>
      have hra : retries - attempt = rr := by omega
      cases rr with
      | zero => simp [search_with_retry_go, retryFromModel, hra, hres]
      | succ ss => simp [search_with_retry_go, retryFromModel, hra, hres]
    | errDict msg =>
      by_cases hr : retryable_error msg
      · by_cases hlt : attempt < retries
        · have hrr : 1 ≤ rr := by omega
          have h2 : (2 : Nat) ^ attempt * 2 = 2 ^ (attempt + 1) := (pow_succ 2 attempt).symm
          have hih := ih (attempt + 1) (sleeps ++ [2 ^ attempt]) (by omega) hrr
          have hra : retries - attempt = (retries - (attempt + 1)) + 1 := by omega
          rw [hra]
          simp [search_with_retry_go, retryFromModel, hres, hr, hlt, h2, hih]
        · have hra : retries - attempt = 0 := by omega
          simp [search_with_retry_go, retryFromModel, hra, hres, hr, hlt]
      · have hra : retries - attempt = rr := by omega
        cases rr with
        | zero => simp [search_with_retry_go, retryFromModel, hra, hres, hr]
        | succ ss => simp [search_with_retry_go, retryFromModel, hra, hres, hr]

/-- C1 (amended): `search_with_retry` retries exactly the failures whose
error message contains one of the substrings `"429"`, `"502"`, `"503"`,
`"504"` (HTTP statuses 429/502/503/504 produce such messages; connection
timeouts and connection errors do not and are terminal), sleeping
`1, 2, 4, …` (doubling each retry) for up to `maxRetries` additional
attempts; a terminal failure or an exhausted budget returns the last
failure dictionary at once, and a success is never fabricated: the run is
exactly `retryFromModel`. -/
theorem C1_search_with_retry_amended :
    ∀ net q c kw retries,
    search_with_retry net q c kw retries =
      retryFromModel (fun i => search q c kw (net i)) 0 retries := by
  intro net q c kw retries
  have h := search_with_retry_go_model net q c kw retries (retries + 1) 0 []
    (by omega) (by omega)
  simpa [search_with_retry] using h

/-- C1 counterexample: the claim classifies a connection timeout as
retryable, but `search_with_retry` never retries it — its error message
contains none of the digit substrings the code tests — so on a persistently
timing-out network with one retry allowed, the code returns at once with no
backoff sleep while the claimed behaviour sleeps one time unit and retries. -/
theorem C1_counterexample_timeout_terminal :
    search_with_retry (fun _ _ => HttpOutcome.timeout) "weather" 10 {} 1 ≠
      fetchWithRetry_claimed (fun _ _ => HttpOutcome.timeout) "weather" 10 {} 0 1 := by
  decide

/-! ## Claim C2 -/

/-- C2 (amended): `get_response` already converts every provider failure
into a diagnostic string and never raises, so `get_response_with_retry`
never sleeps and never retries: with `retries ≥ 1` it returns the first
attempt's `get_response` result unchanged, with `retries = 0` it returns
the fixed exhaustion message, and it never propagates a fault (it is a
total function into `String`). -/
theorem C2_respond_with_retry_amended :
    ∀ tok model mt tp msgs ctx providers retries,
    get_response_with_retry tok model mt tp msgs ctx providers retries =
      if retries = 0 then
        ("⚠️ 応答の生成に失敗しました。時間をおいて再試行してください。", ([] : List Nat))
      else (get_response tok model mt tp msgs ctx (providers 0), []) := by
  intro tok model mt tp msgs ctx providers retries
  cases retries with
  | zero => rfl
  | succ n => rfl

/-- C2 counterexample: with the provider rate-limiting every attempt and
`retries = 3`, the claimed behaviour sleeps `2 ^ 0` and `2 ^ 1` time units
and then returns the fixed exhaustion message, but the code performs no
sleep and returns `get_response`'s rate-limit diagnostic from the first
attempt — the loop's rate-limit handler is unreachable because
`get_response` catches the exception itself. -/
theorem C2_counterexample_rate_limit_not_retried :
    get_response_with_retry none "gpt-4o" 1000 0.7 [] none
        (fun _ _ => ChatOutcome.rateLimitError) 3 ≠
      respondWithRetry_claimed none "gpt-4o" 1000 0.7 [] none
        (fun _ _ => ChatOutcome.rateLimitError) 0 3 false := by
  decide

/-! ## Claim C3 -/

/-- C3: `get_response` is a total function into `String` — every provider
outcome, malformed or exceptional, is rendered as text, never rethrown.
The four malformed completions (empty choice list, missing message, null
content, blank content) produce four pairwise distinct diagnostic strings,
and the rate-limit and authentication errors produce two further distinct
diagnostics. -/
theorem C3_get_response_distinct_diagnostics :
    (∀ tok mo mt tp msgs ctx,
      get_response tok mo mt tp msgs ctx (fun _ => .completion ⟨[]⟩)
        = "⚠️ APIレスポンスにchoicesが含まれていません。")
    ∧ (∀ tok mo mt tp msgs ctx rest fr,
      get_response tok mo mt tp msgs ctx
          (fun _ => .completion ⟨⟨none, fr⟩ :: rest⟩)
        = "⚠️ APIレスポンスにmessageが含まれていません。")
    ∧ (∀ tok mo mt tp msgs ctx rest fr,
      get_response tok mo mt tp msgs ctx
          (fun _ => .completion ⟨⟨some ⟨none⟩, fr⟩ :: rest⟩)
        = "⚠️ APIレスポンスのcontentがNoneです。finish_reason: " ++ fr)
    ∧ (∀ tok mo mt tp msgs ctx rest fr content, pyStrip content = "" →
      get_response tok mo mt tp msgs ctx
          (fun _ => .completion ⟨⟨some ⟨some content⟩, fr⟩ :: rest⟩)
        = "⚠️ APIレスポンスが空の文字列です。")
    ∧ (∀ tok mo mt tp msgs ctx rest fr content, pyStrip content ≠ "" →
      get_response tok mo mt tp msgs ctx
          (fun _ => .completion ⟨⟨some ⟨some content⟩, fr⟩ :: rest⟩)
        = content)
    ∧ (∀ tok mo mt tp msgs ctx,
      get_response tok mo mt tp msgs ctx (fun _ => .rateLimitError)
        = "⚠️ APIのレート制限に達しました。しばらく待ってから再試行してください。")
    ∧ (∀ tok mo mt tp msgs ctx,
      get_response tok mo mt tp msgs ctx (fun _ => .authenticationError)
        = "⚠️ OpenAI APIキーが無効です。設定を確認してください。")
    ∧ (∀ tok mo mt tp msgs ctx m,
      get_response tok mo mt tp msgs ctx (fun _ => .apiError m)
        = "⚠️ OpenAI APIエラー: " ++ m)
    ∧ (∀ tok mo mt tp msgs ctx m,
      get_response tok mo mt tp msgs ctx (fun _ => .otherError m)
        = "⚠️ 予期しないエラーが発生しました: " ++ m)
    ∧ ("⚠️ APIレスポンスにchoicesが含まれていません。"
        ≠ "⚠️ APIレスポンスにmessageが含まれていません。")
    ∧ ("⚠️ APIレスポンスにchoicesが含まれていません。" ≠ "⚠️ APIレスポンスが空の文字列です。")
    ∧ ("⚠️ APIレスポンスにmessageが含まれていません。" ≠ "⚠️ APIレスポンスが空の文字列です。")
    ∧ (∀ fr, "⚠️ APIレスポンスのcontentがNoneです。finish_reason: " ++ fr
        ≠ "⚠️ APIレスポンスにchoicesが含まれていません。")
    ∧ (∀ fr, "⚠️ APIレスポンスのcontentがNoneです。finish_reason: " ++ fr
        ≠ "⚠️ APIレスポンスにmessageが含まれていません。")
    ∧ (∀ fr, "⚠️ APIレスポンスのcontentがNoneです。finish_reason: " ++ fr
        ≠ "⚠️ APIレスポンスが空の文字列です。")
    ∧ ("⚠️ APIのレート制限に達しました。しばらく待ってから再試行してください。"
        ≠ "⚠️ OpenAI APIキーが無効です。設定を確認してください。") := by
  refine ⟨?_, ?_, ?_, ?_, ?_, ?_, ?_, ?_, ?_, by decide, by decide, by decide,
    ?_, ?_, ?_, by decide⟩
  · intro tok mo mt tp msgs ctx
    rfl
  · intro tok mo mt tp msgs ctx rest fr
    rfl
  · intro tok mo mt tp msgs ctx rest fr
    rfl
  · intro tok mo mt tp msgs ctx rest fr content h
    simp [get_response, render_completion, h]
  · intro tok mo mt tp msgs ctx rest fr content h
    simp [get_response, render_completion, h]
  · intro tok mo mt tp msgs ctx
    rfl
  · intro tok mo mt tp msgs ctx
    rfl
  · intro tok mo mt tp msgs ctx m
    rfl
  · intro tok mo mt tp msgs ctx m
    rfl
  · exact append_ne_of_take_ne _ _ 12 (by decide) (by decide)
  · exact append_ne_of_take_ne _ _ 12 (by decide) (by decide)
  · exact append_ne_of_take_ne _ _ 12 (by decide) (by decide)

/-- C3 at a concrete input: whitespace-only content is rendered as the
blank-response diagnostic. -/
theorem C3_witness_blank_content :
    get_response none "gpt-4o" 1000 0.7 [] none
        (fun _ => .completion ⟨⟨some ⟨some " "⟩, "stop"⟩ :: []⟩)
      = "⚠️ APIレスポンスが空の文字列です。" :=
  C3_get_response_distinct_diagnostics.2.2.2.1 none "gpt-4o" 1000 0.7 [] none [] "stop" " "
    (by decide)

/-! ## Claim C4 -/

theorem sumTokens_nil (count : String → Nat) : sumTokens count [] = 0 := rfl

theorem sumTokens_cons (count : String → Nat) (m : ChatMsg) (l : List ChatMsg) :
    sumTokens count (m :: l) = count m.content + sumTokens count l := by
  simp [sumTokens]

theorem sumTokens_append (count : String → Nat) (l₁ l₂ : List ChatMsg) :
    sumTokens count (l₁ ++ l₂) = sumTokens count l₁ + sumTokens count l₂ := by
  simp [sumTokens]

theorem sumTokens_reverse (count : String → Nat) (l : List ChatMsg) :
    sumTokens count l.reverse = sumTokens count l := by
  simp [sumTokens, List.sum_reverse]

theorem sumTokens_drop_le (count : String → Nat) (l : List ChatMsg) (j : Nat) :
    sumTokens count (l.drop j) ≤ sumTokens count l := by
  conv_rhs => rw [← List.take_append_drop j l]
  rw [sumTokens_append]
  omega

theorem sumTokens_drop_mono (count : String → Nat) (l : List ChatMsg) (i j : Nat)
    (h : i ≤ j) : sumTokens count (l.drop j) ≤ sumTokens count (l.drop i) := by
  have hd : l.drop j = (l.drop i).drop (j - i) := by
    rw [List.drop_drop]
    congr 1
    omega
  rw [hd]
  exact sumTokens_drop_le count (l.drop i) (j - i)

/-- The walk of `_trim_messages` keeps a greedy prefix of the reversed
conversation: the longest one each of whose steps stays within budget. -/
theorem trim_go_spec (count : String → Nat) (B : Nat) :
    ∀ (rl : List ChatMsg) (cur : Nat) (acc : List ChatMsg),
    ∃ k, k ≤ rl.length ∧
      trim_go count B rl cur acc = (rl.take k).reverse ++ acc ∧
      (k = 0 ∨ cur + sumTokens count (rl.take k) ≤ B) ∧
      (k = rl.length ∨ B < cur + sumTokens count (rl.take (k + 1))) := by
  intro rl
  induction rl with
  | nil =>
    intro cur acc
    exact ⟨0, Nat.le_refl 0, by simp [trim_go], Or.inl rfl, Or.inl rfl⟩
  | cons m rest ih =>
    intro cur acc
    by_cases hc : B < cur + count m.content
    · refine ⟨0, by simp, by simp [trim_go, hc], Or.inl rfl, Or.inr ?_⟩
      simpa [sumTokens_cons, sumTokens_nil] using hc
    · obtain ⟨k, hk, heq, hbud, hstop⟩ := ih (cur + count m.content) (m :: acc)
      refine ⟨k + 1, by simpa using Nat.succ_le_succ hk, ?_, ?_, ?_⟩
      · rw [show trim_go count B (m :: rest) cur acc
            = trim_go count B rest (cur + count m.content) (m :: acc) from by
          simp [trim_go, hc]]
        rw [heq, List.take_succ_cons, List.reverse_cons, List.append_assoc]
        rfl
      · right
        rcases hbud with h0 | hle
        · subst h0
          simp only [List.take_succ_cons, List.take_zero, sumTokens_cons, sumTokens_nil]
          omega
        · simp only [List.take_succ_cons, sumTokens_cons]
          omega
      · rcases hstop with hlen | hlt
        · left
          simp [hlen]
        · right
          simp only [List.take_succ_cons, sumTokens_cons]
          omega

/-- C4: `_trim_messages` keeps the system message at index 0, keeps a
suffix of the conversation (the most recent messages, in their original
order), that suffix fits the budget together with the system message
whenever it is nonempty, and it is maximal: dropping fewer messages would
exceed the budget.  In particular, with a system message estimating to 50,
five messages estimating to 100 each and budget 250, exactly the system
message plus the two most recent messages are kept. -/
theorem C4_trim_messages_greedy :
    (∀ (count : String → Nat) (sys : ChatMsg) (conv : List ChatMsg) (B : Nat),
      ∃ n, n ≤ conv.length ∧
        trim_messages count (sys :: conv) B = sys :: conv.drop n ∧
        (conv.drop n = [] ∨ count sys.content + sumTokens count (conv.drop n) ≤ B) ∧
        (∀ m, m < n → B < count sys.content + sumTokens count (conv.drop m)))
    ∧ trim_messages exCount (exSys :: exConv) 250 = exSys :: exConv.drop 3 := by
  constructor
  · intro count sys conv B
    cases conv with
    | nil =>
      refine ⟨0, Nat.le_refl 0, by simp [trim_messages], Or.inl rfl, ?_⟩
      intro m hm
      omega
    | cons c0 cs =>
      obtain ⟨k, hk, heq, hbud, hstop⟩ :=
        trim_go_spec count B (c0 :: cs).reverse (count sys.content) []
      rw [List.length_reverse] at hk hstop
      have htake : ∀ j, j ≤ (c0 :: cs).length →
          ((c0 :: cs).reverse.take j).reverse = (c0 :: cs).drop ((c0 :: cs).length - j) := by
        intro j _
        rw [List.take_reverse, List.reverse_reverse]
      refine ⟨(c0 :: cs).length - k, by omega, ?_, ?_, ?_⟩
      · have hunf : trim_messages count (sys :: c0 :: cs) B
            = sys :: trim_go count B (c0 :: cs).reverse (count sys.content) [] := rfl
        rw [hunf, heq, List.append_nil, htake k hk]
      · rcases hbud with h0 | hle
        · left
          subst h0
          simp
        · right
          have := htake k hk
          rw [← this, sumTokens_reverse]
          exact hle
      · intro m hm
        have hklt : k < (c0 :: cs).length := by omega
        rcases hstop with hlen | hlt
        · omega
        · have hd : ((c0 :: cs).reverse.take (k + 1)).reverse
              = (c0 :: cs).drop ((c0 :: cs).length - (k + 1)) := htake (k + 1) (by omega)
          have hsum : sumTokens count ((c0 :: cs).reverse.take (k + 1))
              = sumTokens count ((c0 :: cs).drop ((c0 :: cs).length - (k + 1))) := by
            rw [← hd, sumTokens_reverse]
          rw [hsum] at hlt
          have hmono : sumTokens count ((c0 :: cs).drop ((c0 :: cs).length - (k + 1)))
              ≤ sumTokens count ((c0 :: cs).drop m) :=
            sumTokens_drop_mono count (c0 :: cs) m ((c0 :: cs).length - (k + 1)) (by omega)
          omega
  · decide

/-! ## Claim C5 -/

/-- The context-truncation loop keeps a greedy prefix of the lines: every
kept step stays within the limit, and it stops at the first line that would
exceed it. -/
theorem truncate_lines_spec (count : String → Nat) (limit : Nat) :
    ∀ (lines : List String) (acc : String),
    ∃ k, k ≤ lines.length ∧
      truncate_lines count limit lines acc = acc ++ joinNL (lines.take k) ∧
      (∀ j, 1 ≤ j → j ≤ k → count (acc ++ joinNL (lines.take j)) ≤ limit) ∧
      (k = lines.length ∨ limit < count (acc ++ joinNL (lines.take (k + 1)))) := by
  intro lines
  induction lines with
  | nil =>
    intro acc
    refine ⟨0, Nat.le_refl 0, by simp [truncate_lines, joinNL], ?_, Or.inl rfl⟩
    intro j h1 h2
    omega
  | cons line rest ih =>
    intro acc
    by_cases hc : limit < count (acc ++ line ++ "\n")
    · refine ⟨0, by simp, by simp [truncate_lines, hc, joinNL], ?_, Or.inr ?_⟩
      · intro j h1 h2
        omega
      · have h1 : acc ++ joinNL ((line :: rest).take (0 + 1)) = acc ++ line ++ "\n" := by
          simp [joinNL, String.append_assoc]
        rw [h1]
        exact hc
    · obtain ⟨k, hk, heq, hstep, hstop⟩ := ih (acc ++ line ++ "\n")
      have hjoin : ∀ j : Nat, (acc ++ line ++ "\n") ++ joinNL (rest.take j)
          = acc ++ joinNL ((line :: rest).take (j + 1)) := by
        intro j
        simp [List.take_succ_cons, joinNL, String.append_assoc]
      refine ⟨k + 1, by simpa using Nat.succ_le_succ hk, ?_, ?_, ?_⟩
      · have hunf : truncate_lines count limit (line :: rest) acc
            = truncate_lines count limit rest (acc ++ line ++ "\n") := by
          simp [truncate_lines, hc]
        rw [hunf, heq, hjoin k]
      · intro j h1 hj
        cases j with
        | zero => omega
        | succ jj =>
          rw [← hjoin jj]
          cases jj with
          | zero => simpa [joinNL] using Nat.le_of_not_lt hc
          | succ j2 => exact hstep (j2 + 1) (by omega) (by omega)
      · rcases hstop with hlen | hlt
        · left
          simp [hlen]
        · right
          rw [← hjoin (k + 1)]
          exact hlt

/-- C5 (amended): the context is bounded only when the exact tokenizer is
available and its estimate exceeds the context budget of 2000 tokens
(distinct from the overall prompt budget of 4000): lines are then
accumulated from the start while the running estimate stays at or under
budget, stopping at the first line that would exceed it, and the fixed
truncation notice is appended; when the tokenizer is unavailable, or the
estimate is within budget, the context is appended to the system message
content unchanged, with no bounding and no notice. -/
theorem C5_bounded_context_amended :
    (∀ ctx, ctx ≠ "" →
      (build_system_message none (some ctx)).content = persona ++ context_preamble ++ ctx)
    ∧ (∀ (f : String → Nat) ctx, ctx ≠ "" →
      count_tokens (some f) ctx ≤ context_token_limit →
      (build_system_message (some f) (some ctx)).content
        = persona ++ context_preamble ++ ctx)
    ∧ (∀ (f : String → Nat) ctx, ctx ≠ "" →
      context_token_limit < count_tokens (some f) ctx →
      ∃ k, k ≤ (pySplitChar '\n' ctx).length ∧
        (build_system_message (some f) (some ctx)).content
          = persona ++ context_preamble
            ++ (joinNL ((pySplitChar '\n' ctx).take k) ++ truncation_notice) ∧
        (∀ j, 1 ≤ j → j ≤ k →
          f (joinNL ((pySplitChar '\n' ctx).take j)) ≤ context_token_limit) ∧
        (k = (pySplitChar '\n' ctx).length ∨
          context_token_limit < f (joinNL ((pySplitChar '\n' ctx).take (k + 1)))))
    ∧ context_token_limit ≠ global_token_limit := by
  refine ⟨?_, ?_, ?_, by decide⟩
  · intro ctx hne
    simp [build_system_message, bounded_context, hne]
  · intro f ctx hne hle
    simp [build_system_message, bounded_context, hne, Nat.not_lt.mpr hle]
  · intro f ctx hne hgt
    obtain ⟨k, hk, heq, hstep, hstop⟩ :=
      truncate_lines_spec f context_token_limit (pySplitChar '\n' ctx) ""
    refine ⟨k, hk, ?_, ?_, ?_⟩
    · have hcontent : (build_system_message (some f) (some ctx)).content
          = persona ++ context_preamble
            ++ (truncate_lines f context_token_limit (pySplitChar '\n' ctx) ""
                ++ truncation_notice) := by
        simp [build_system_message, bounded_context, hne, hgt]
        rfl
      rw [hcontent, heq, String.empty_append]
    · intro j h1 hj
      have := hstep j h1 hj
      simpa [String.empty_append] using this
    · rcases hstop with h | h
      · exact Or.inl h
      · right
        simpa [String.empty_append] using h

/-- C5 at a concrete input: with a tokenizer that estimates everything
over budget, the whole context is cut and only the notice remains. -/
theorem C5_witness_truncation :
    ∃ k, k ≤ (pySplitChar '\n' "x").length ∧
      (build_system_message (some (fun _ => 9999)) (some "x")).content
        = persona ++ context_preamble
          ++ (joinNL ((pySplitChar '\n' "x").take k) ++ truncation_notice) ∧
      (∀ j, 1 ≤ j → j ≤ k →
        (fun _ => 9999 : String → Nat) (joinNL ((pySplitChar '\n' "x").take j))
          ≤ context_token_limit) ∧
      (k = (pySplitChar '\n' "x").length ∨
        context_token_limit
          < (fun _ => 9999 : String → Nat) (joinNL ((pySplitChar '\n' "x").take (k + 1)))) :=
  C5_bounded_context_amended.2.2.1 (fun _ => 9999) "x" (by decide) (by decide)

/-- C5 counterexample: without tiktoken the context is never bounded.  A
context of 8004 characters estimates (by the fallback `len // 4`) to 2001
tokens, over the 2000-token budget, yet `get_response` appends it to the
system message unchanged and without a notice, while the claimed behaviour
bounds it and appends the notice. -/
theorem C5_counterexample_no_tiktoken_unbounded :
    (build_system_message none (some bigCtx)).content ≠
      persona ++ context_preamble
        ++ boundContext_claimed (count_tokens none) context_token_limit bigCtx := by
  have hdata : bigCtx.data = List.replicate 8004 'a' := by
    rw [bigCtx, data_mk]
  have hchars : ∀ c ∈ bigCtx.data, c ≠ '\n' := by
    intro c hc
    rw [hdata] at hc
    have := List.eq_of_mem_replicate hc
    subst this
    decide
  have hlines : pySplitChar '\n' bigCtx = [bigCtx] := pySplitChar_no_sep '\n' bigCtx hchars
  have hne : bigCtx ≠ "" := by
    intro h
    have hd := congrArg String.data h
    rw [hdata] at hd
    rw [show (8004 : Nat) = 8003 + 1 from rfl, List.replicate_succ] at hd
    exact List.cons_ne_nil _ _ hd
  have hlen : pyLen bigCtx = 8004 := by
    show bigCtx.data.length = 8004
    rw [hdata, List.length_replicate]
  have hcount : count_tokens none ("" ++ bigCtx ++ "\n") = 2001 := by
    show pyLen ("" ++ bigCtx ++ "\n") / 4 = 2001
    rw [pyLen_append, pyLen_append, hlen]
    decide
  have hkeep : claimedKeepCount (count_tokens none) context_token_limit [bigCtx] "" = 0 := by
    have hlt : context_token_limit < count_tokens none ("" ++ bigCtx ++ "\n") := by
      rw [hcount]
      decide
    rw [claimedKeepCount, if_pos hlt]
  have hclaim : boundContext_claimed (count_tokens none) context_token_limit bigCtx
      = truncation_notice := by
    rw [boundContext_claimed, hlines, hkeep]
    rw [if_neg (by decide : ¬((0 : Nat) = [bigCtx].length))]
    rw [List.take_zero]
    rw [show joinNL [] = "" from rfl, String.empty_append]
  have hcode : (build_system_message none (some bigCtx)).content
      = persona ++ context_preamble ++ bigCtx := by
    rw [build_system_message, if_neg hne]
    rfl
  intro h
  rw [hcode, hclaim] at h
  have hl := congrArg pyLen h
  simp only [pyLen_append, hlen] at hl
  have hnotice : pyLen truncation_notice < 8004 := by decide
  omega

/-! ## Claim C6 -/

/-- C6: `format_results_for_llm` emits item blocks for at most the first 8
items, in response order (block `j` is built from item `j`, numbered from
1, and no block exists past `min 8` of the item count); a description
longer than 300 characters is emitted as exactly its first 300 characters
plus the `"..."` marker; at most 3 extra snippets are joined and the join
is truncated to 200 characters plus the marker (at most 203 characters in
all); and an item with absent metadata produces a block holding only the
number, title and URL — no placeholder text.  On ten items exactly
`3 + 8` list entries are produced, and a 400-character description is cut
to exactly 300 characters plus the marker. -/
theorem C6_format_results_for_llm_detailed :
    (∀ d results, (llm_result_list d results).length = 3 + min 8 results.length)
    ∧ (∀ d results j, j < 8 →
        (llm_result_list d results)[3 + j]?
          = (results[j]?).map (fun r => result_block (j + 1) r))
    ∧ (∀ d w, d.web = some w → w.results.getD [] ≠ [] →
        format_results_for_llm (some (.payload d))
          = pyJoin "\n" (llm_result_list d (w.results.getD [])))
    ∧ (∀ r desc, r.description = some desc → 300 < pyLen desc →
        seg_desc r = ["\n説明: " ++ (pyTake 300 desc ++ "...")])
    ∧ (∀ desc, 300 ≤ pyLen desc → pyLen (pyTake 300 desc) = 300)
    ∧ (∀ r l, r.extra_snippets = some l → l ≠ [] →
        seg_snippets r
            = ["\n追加情報: "
                ++ (if 200 < pyLen (pyJoin " | " (l.take 3)) then
                      pyTake 200 (pyJoin " | " (l.take 3)) ++ "..."
                    else pyJoin " | " (l.take 3))]
          ∧ (l.take 3).length ≤ 3
          ∧ (∀ t ∈ seg_snippets r, pyLen t ≤ pyLen "\n追加情報: " + 203))
    ∧ (∀ i t u, result_block i { title := some t, url := some u }
        = "\n【結果 " ++ toString i ++ "】" ++ ("\nタイトル: " ++ t) ++ ("\nURL: " ++ u))
    ∧ (llm_result_list {} items10).length = 3 + 8
    ∧ pyLen (pyTake 300 desc400) = 300
    ∧ seg_desc item400 = ["\n説明: " ++ (pyTake 300 desc400 ++ "...")] := by
  refine ⟨?_, ?_, ?_, ?_, ?_, ?_, ?_, ?_, ?_, ?_⟩
  · intro d results
    simp [llm_result_list, llm_header]
    omega
  · intro d results j hj
    have h3 : (llm_header d results).length = 3 := rfl
    rw [llm_result_list, List.getElem?_append_right (by rw [h3]; omega), h3]
    have hj3 : 3 + j - 3 = j := by omega
    rw [hj3, List.getElem?_map, List.getElem?_enum, List.getElem?_take_of_lt hj,
      Option.map_map]
    rfl
  · intro d w hw hr
    simp [format_results_for_llm, hw, hr]
  · intro r desc hd hl
    have hne : desc ≠ "" := by
      intro h
      subst h
      simp [pyLen] at hl
    simp [seg_desc, hd, hne, hl]
  · intro desc hd
    rw [pyTake, pyLen, data_mk, List.length_take]
    rw [pyLen] at hd
    omega
  · intro r l hsome hne
    refine ⟨by simp [seg_snippets, hsome, hne], ?_, ?_⟩
    · have := List.length_take_le 3 l
      omega
    · intro t ht
      simp [seg_snippets, hsome, hne] at ht
      subst ht
      rw [pyLen_append]
      by_cases hc : 200 < pyLen (pyJoin " | " (l.take 3))
      · rw [if_pos hc, pyLen_append]
        have : pyLen (pyTake 200 (pyJoin " | " (l.take 3))) ≤ 200 := by
          rw [pyTake, pyLen, data_mk, List.length_take]
          omega
        have h3 : pyLen "..." = 3 := by decide
        omega
      · rw [if_neg hc]
        omega
  · intro i t u
    simp [result_block, seg_host, seg_desc, seg_snippets, seg_age, seg_content_type,
      seg_article, seg_rating, seg_video, seg_schemas, String.join, String.append_assoc]
  · decide
  · decide
  · decide

/-! ## Claim C8 -/

theorem pyStrip_empty_iff (s : String) :
    pyStrip s = "" ↔ ∀ c ∈ s.data, isWs c := by
  rw [pyStrip, mk_eq_empty_iff]
  constructor
  · intro h c hc
    rw [List.reverse_eq_nil_iff, List.dropWhile_eq_nil_iff] at h
    have hsplit := List.takeWhile_append_dropWhile (p := isWs) (l := s.data)
    rw [← hsplit] at hc
    rcases List.mem_append.mp hc with h1 | h2
    · exact List.mem_takeWhile_imp h1
    · exact h c (List.mem_reverse.mpr h2)
  · intro h
    rw [List.dropWhile_eq_nil_iff.mpr h]
    rfl

theorem eraseSubFuel_ws_id (pat : List Char) (hp : ∃ c ∈ pat, ¬ isWs c) :
    ∀ (fuel : Nat) (s : List Char), (∀ c ∈ s, isWs c) → eraseSubFuel pat fuel s = s := by
  intro fuel
  induction fuel with
  | zero =>
    intro s _
    rfl
  | succ n ih =>
    intro s hs
    cases s with
    | nil => rfl
    | cons c rest =>
      have hnp : ¬ (pat ≠ [] ∧ pat.isPrefixOf (c :: rest)) := by
        rintro ⟨-, hpre⟩
        obtain ⟨d, hd, hdw⟩ := hp
        have hmem : d ∈ c :: rest := (List.isPrefixOf_iff_prefix.mp hpre).subset hd
        exact hdw (hs d hmem)
      rw [eraseSubFuel, if_neg hnp]
      exact congrArg (c :: ·) (ih rest (fun x hx => hs x (List.mem_cons_of_mem _ hx)))

theorem foldl_erase_ws_id :
    ∀ (ps : List String) (s : String),
      (∀ p ∈ ps, ∃ c ∈ p.data, ¬ isWs c) → (∀ c ∈ s.data, isWs c) →
      ps.foldl (fun q p => pyEraseAll q p) s = s := by
  intro ps
  induction ps with
  | nil =>
    intro s _ _
    rfl
  | cons p rest ih =>
    intro s hp hs
    have h1 : pyEraseAll s p = s := by
      rw [pyEraseAll,
        eraseSubFuel_ws_id p.data (hp p (List.mem_cons_self _ _)) s.data.length s.data hs,
        mk_data]
    rw [List.foldl_cons, h1]
    exact ih s (fun q hq => hp q (List.mem_cons_of_mem _ hq)) hs

theorem splitWsAux_ws_nil : ∀ s : List Char, (∀ c ∈ s, isWs c) → splitWsAux s [] = [] := by
  intro s
  induction s with
  | nil =>
    intro _
    rfl
  | cons c rest ih =>
    intro hs
    have hc : isWs c := hs c (List.mem_cons_self _ _)
    rw [splitWsAux, if_pos hc, if_pos (by rfl)]
    exact ih (fun x hx => hs x (List.mem_cons_of_mem _ hx))

/-- `extract_search_query`, unfolded. -/
theorem extract_search_query_eq (msg : String) :
    extract_search_query msg =
      if pyStrip (pyJoin " " (pySplitWs
            (remove_phrase_list.foldl (fun q p => pyEraseAll q p) msg))) ≠ ""
      then pyStrip (pyJoin " " (pySplitWs
            (remove_phrase_list.foldl (fun q p => pyEraseAll q p) msg)))
      else pyStrip msg := rfl

/-- C8 (amended): `extract_search_query` removes the filler phrases in
order, collapses whitespace, and falls back to the *stripped* original
utterance when the stripped result is empty; the returned query is the
empty string exactly when the utterance consists solely of whitespace (in
particular it is nonempty for every utterance holding any non-whitespace
character). -/
theorem C8_extract_search_query_amended :
    (∀ msg, extract_search_query msg = "" ↔ pyStrip msg = "")
    ∧ (∀ msg,
        pyStrip (pyJoin " " (pySplitWs
          (remove_phrase_list.foldl (fun q p => pyEraseAll q p) msg))) = "" →
        extract_search_query msg = pyStrip msg)
    ∧ (∀ msg,
        pyStrip (pyJoin " " (pySplitWs
          (remove_phrase_list.foldl (fun q p => pyEraseAll q p) msg))) ≠ "" →
        extract_search_query msg = pyStrip (pyJoin " " (pySplitWs
          (remove_phrase_list.foldl (fun q p => pyEraseAll q p) msg)))) := by
  have hph : ∀ p ∈ remove_phrase_list, ∃ c ∈ p.data, ¬ isWs c := by decide
  refine ⟨?_, ?_, ?_⟩
  · intro msg
    constructor
    · intro h
      rw [extract_search_query_eq] at h
      by_cases hc : pyStrip (pyJoin " " (pySplitWs
          (remove_phrase_list.foldl (fun q p => pyEraseAll q p) msg))) ≠ ""
      · rw [if_pos hc] at h
        exact absurd h hc
      · rw [if_neg hc] at h
        exact h
    · intro h
      have hws : ∀ c ∈ msg.data, isWs c := (pyStrip_empty_iff msg).mp h
      have hfold : remove_phrase_list.foldl (fun q p => pyEraseAll q p) msg = msg :=
        foldl_erase_ws_id remove_phrase_list msg hph hws
      have hsplit : pySplitWs msg = [] := by
        rw [pySplitWs, splitWsAux_ws_nil msg.data hws]
        rfl
      rw [extract_search_query_eq, hfold, hsplit]
      rw [show pyJoin " " [] = "" from rfl]
      rw [if_neg (fun hne => hne rfl)]
      exact h
  · intro msg h
    rw [extract_search_query_eq, if_neg (fun hne => hne h)]
  · intro msg h
    rw [extract_search_query_eq, if_pos h]

/-- C8 counterexample: on a whitespace-only utterance the returned query
*is* the empty string, and the fallback is the stripped utterance, not the
utterance verbatim. -/
theorem C8_counterexample_blank_utterance :
    extract_search_query " " = ""
    ∧ extract_search_query "  ？  " = "？"
    ∧ "？" ≠ "  ？  " := by
  refine ⟨by decide, by decide, by decide⟩

end SearchChat
